import Mathlib

/-!
# `music_gsf.c` : the libGSF codec adapter of SDL-Mixer-X

A shallow embedding of `src/codecs/music_gsf.c`.

* C pointers are natural numbers, `0` being `NULL`.
* `int` fields are `Int`; the file never does arithmetic on them beyond `++`/`--` on the
  loader count (incrementing `INT_MAX` is undefined in C and is not modelled).
* `double` values are exact rationals (`ℚ`).
* The decoder library (libGSF), the SDL audio stream and the host allocator are not part of
  the file; they are parameters of the embedding (`Decoder`, `AudioStream`, `Host`).
-/

set_option linter.unusedVariables false

namespace MusicGsf

/-! ## Loader -/

/-- The twelve entry points of `gsf_loader`, named as the struct fields. -/
inductive Entry
  | gsf_load_file
  | gsf_num_channels
  | gsf_new
  | gsf_ended
  | gsf_sample_rate
  | gsf_get_tags
  | gsf_free_tags
  | gsf_default_length
  | gsf_seek
  | gsf_tell
  | gsf_play
  | gsf_delete
  deriving DecidableEq, Repr

/-- The struct `gsf_loader` (lines 31-47): the count `loaded`, the library `handle` and one
function pointer per entry point (`0` is `NULL`). -/
structure gsf_loader where
  loaded : Int
  handle : Nat
  gsf_load_file : Nat
  gsf_num_channels : Nat
  gsf_new : Nat
  gsf_ended : Nat
  gsf_sample_rate : Nat
  gsf_get_tags : Nat
  gsf_free_tags : Nat
  gsf_default_length : Nat
  gsf_seek : Nat
  gsf_tell : Nat
  gsf_play : Nat
  gsf_delete : Nat
  deriving DecidableEq, Repr

/-- The value of `static gsf_loader gsf;` at program start: every member zero. -/
def gsf_zero : gsf_loader :=
  { loaded := 0, handle := 0, gsf_load_file := 0, gsf_num_channels := 0, gsf_new := 0,
    gsf_ended := 0, gsf_sample_rate := 0, gsf_get_tags := 0, gsf_free_tags := 0,
    gsf_default_length := 0, gsf_seek := 0, gsf_tell := 0, gsf_play := 0, gsf_delete := 0 }

/-- Reads the member `gsf.FUNC`. -/
def gsf_loader.get (g : gsf_loader) : Entry → Nat
  | .gsf_load_file => g.gsf_load_file
  | .gsf_num_channels => g.gsf_num_channels
  | .gsf_new => g.gsf_new
  | .gsf_ended => g.gsf_ended
  | .gsf_sample_rate => g.gsf_sample_rate
  | .gsf_get_tags => g.gsf_get_tags
  | .gsf_free_tags => g.gsf_free_tags
  | .gsf_default_length => g.gsf_default_length
  | .gsf_seek => g.gsf_seek
  | .gsf_tell => g.gsf_tell
  | .gsf_play => g.gsf_play
  | .gsf_delete => g.gsf_delete

/-- Writes the member `gsf.FUNC = p`. -/
def gsf_loader.set (g : gsf_loader) (FUNC : Entry) (p : Nat) : gsf_loader :=
  match FUNC with
  | .gsf_load_file => { g with gsf_load_file := p }
  | .gsf_num_channels => { g with gsf_num_channels := p }
  | .gsf_new => { g with gsf_new := p }
  | .gsf_ended => { g with gsf_ended := p }
  | .gsf_sample_rate => { g with gsf_sample_rate := p }
  | .gsf_get_tags => { g with gsf_get_tags := p }
  | .gsf_free_tags => { g with gsf_free_tags := p }
  | .gsf_default_length => { g with gsf_default_length := p }
  | .gsf_seek => { g with gsf_seek := p }
  | .gsf_tell => { g with gsf_tell := p }
  | .gsf_play => { g with gsf_play := p }
  | .gsf_delete => { g with gsf_delete := p }

/-- Outcome of one statement group inside `GSF_Load`: fall through to the next statement with
the loader as it now is, or `return code;` with the loader as it is left. -/
inductive LoadStep
  | next (gsf : gsf_loader)
  | ret (code : Int) (gsf : gsf_loader)
  deriving DecidableEq, Repr

/-- Modelled from the spec: the `FUNCTION_LOADER(FUNC, SIG)` preprocessor definition, which
`GSF_Load` uses twelve times and which is defined nowhere in the source file.  The spec says of
the acquisition: "dynamically resolve every required entry point from the external library;
fail with a decoder-unavailable condition if the library or any required symbol cannot be
found, leaving global state unchanged", and "fails atomically (no partial binding left live)".
`resolve FUNC` is the address the library exports for `FUNC` (`0` when the library or the
symbol is not found); `entry` is the loader as it was when `GSF_Load` was entered. -/
def FUNCTION_LOADER (resolve : Entry → Nat) (FUNC : Entry) (entry gsf : gsf_loader) :
    LoadStep :=
  if resolve FUNC = 0 then LoadStep.ret (-1) entry
  else LoadStep.next (gsf.set FUNC (resolve FUNC))

/-- The entry points in the order in which `GSF_Load` resolves them (lines 54-65). -/
def loadOrder : List Entry :=
  [.gsf_load_file, .gsf_num_channels, .gsf_new, .gsf_ended, .gsf_sample_rate, .gsf_get_tags,
   .gsf_free_tags, .gsf_default_length, .gsf_seek, .gsf_tell, .gsf_play, .gsf_delete]

/-- The consecutive `FUNCTION_LOADER` lines of `GSF_Load`: the first one that returns ends the
function, otherwise control falls through to the next. -/
def functionLoaders (resolve : Entry → Nat) (entry : gsf_loader) :
    List Entry → gsf_loader → LoadStep
  | [], gsf => LoadStep.next gsf
  | FUNC :: rest, gsf =>
    match FUNCTION_LOADER resolve FUNC entry gsf with
    | LoadStep.next gsf1 => functionLoaders resolve entry rest gsf1
    | LoadStep.ret code gsf1 => LoadStep.ret code gsf1

/-- `GSF_Load` (lines 51-70): returns the result code and the loader afterwards. -/
def GSF_Load (resolve : Entry → Nat) (gsf : gsf_loader) : Int × gsf_loader :=
  if gsf.loaded = 0 then
    match functionLoaders resolve gsf loadOrder gsf with
    | LoadStep.ret code gsf1 => (code, gsf1)
    | LoadStep.next gsf1 => (0, { gsf1 with loaded := gsf1.loaded + 1 })
  else
    (0, { gsf with loaded := gsf.loaded + 1 })

/-- `GSF_Unload` (lines 72-80).  The body of `if (gsf.loaded == 1)` is empty in the source. -/
def GSF_Unload (gsf : gsf_loader) : gsf_loader :=
  if gsf.loaded = 0 then gsf
  else
    let gsf1 := if gsf.loaded = 1 then gsf else gsf
    { gsf1 with loaded := gsf1.loaded - 1 }

/-- `n` sequential cycles of `GSF_Load` followed by `GSF_Unload`. -/
def loadUnloadCycles (resolve : Entry → Nat) : Nat → gsf_loader → gsf_loader
  | 0, gsf => gsf
  | n + 1, gsf => loadUnloadCycles resolve n (GSF_Unload (GSF_Load resolve gsf).2)

/-- The loader with every function pointer set to the address `resolve` gives for it. -/
def boundTo (resolve : Entry → Nat) (g : gsf_loader) : gsf_loader :=
  { loaded := g.loaded, handle := g.handle,
    gsf_load_file := resolve .gsf_load_file,
    gsf_num_channels := resolve .gsf_num_channels,
    gsf_new := resolve .gsf_new,
    gsf_ended := resolve .gsf_ended,
    gsf_sample_rate := resolve .gsf_sample_rate,
    gsf_get_tags := resolve .gsf_get_tags,
    gsf_free_tags := resolve .gsf_free_tags,
    gsf_default_length := resolve .gsf_default_length,
    gsf_seek := resolve .gsf_seek,
    gsf_tell := resolve .gsf_tell,
    gsf_play := resolve .gsf_play,
    gsf_delete := resolve .gsf_delete }

/-- A library that exports every entry point (at distinct non-null addresses). -/
def allResolved : Entry → Nat
  | .gsf_load_file => 101
  | .gsf_num_channels => 102
  | .gsf_new => 103
  | .gsf_ended => 104
  | .gsf_sample_rate => 105
  | .gsf_get_tags => 106
  | .gsf_free_tags => 107
  | .gsf_default_length => 108
  | .gsf_seek => 109
  | .gsf_tell => 110
  | .gsf_play => 111
  | .gsf_delete => 112

/-- A library that lacks `gsf_seek` and exports the rest. -/
def seekMissing : Entry → Nat
  | .gsf_seek => 0
  | e => allResolved e

/-! ## Track instance and its collaborators -/

/-- The generic tag container `Mix_MusicMetaTags` of the host (title, artist, album,
copyright); its helpers `meta_tags_init`, `meta_tags_set`, `meta_tags_clear` live in the host. -/
structure Mix_MusicMetaTags where
  title : String
  artist : String
  album : String
  copyright : String
  deriving DecidableEq, Repr

/-- The tag kinds the adapter sets in `initialize`. -/
inductive Mix_MusicMetaTag
  | MIX_META_TITLE
  | MIX_META_ARTIST
  | MIX_META_ALBUM
  | MIX_META_COPYRIGHT
  deriving DecidableEq, Repr

/-- `meta_tags_init`: an empty container. -/
def meta_tags_init : Mix_MusicMetaTags :=
  { title := "", artist := "", album := "", copyright := "" }

/-- `meta_tags_set(tags, kind, value)`. -/
def meta_tags_set (tags : Mix_MusicMetaTags) (kind : Mix_MusicMetaTag) (value : String) :
    Mix_MusicMetaTags :=
  match kind with
  | .MIX_META_TITLE => { tags with title := value }
  | .MIX_META_ARTIST => { tags with artist := value }
  | .MIX_META_ALBUM => { tags with album := value }
  | .MIX_META_COPYRIGHT => { tags with copyright := value }

/-- `meta_tags_get(tags, kind)`. -/
def meta_tags_get (tags : Mix_MusicMetaTags) : Mix_MusicMetaTag → String
  | .MIX_META_TITLE => tags.title
  | .MIX_META_ARTIST => tags.artist
  | .MIX_META_ALBUM => tags.album
  | .MIX_META_COPYRIGHT => tags.copyright

/-- The struct `GSF_Music` (lines 83-97).  `gsf_emu`, `stream` and `buffer` are pointers.
The source also writes `music->game_emu`; the struct has one decoder handle, `gsf_emu`, and
the embedding reads `game_emu` as that member. -/
structure GSF_Music where
  play_count : Int
  gsf_emu : Nat
  has_track_length : Bool
  echo_disabled : Int
  track_length : Int
  intro_length : Int
  loop_length : Int
  volume : Int
  stream : Nat
  buffer : Nat
  buffer_size : Nat
  tags : Mix_MusicMetaTags
  deriving DecidableEq, Repr

/-- The record `SDL_calloc(1, sizeof(GSF_Music))` returns: every member zero. -/
def GSF_Music_zero : GSF_Music :=
  { play_count := 0, gsf_emu := 0, has_track_length := false, echo_disabled := 0,
    track_length := 0, intro_length := 0, loop_length := 0, volume := 0, stream := 0,
    buffer := 0, buffer_size := 0, tags := meta_tags_init }

/-- The decoder tag block read in `initialize` (`title`, `artist`, `game`, `copyright`). -/
structure GsfTags where
  title : String
  artist : String
  game : String
  copyright : String
  deriving DecidableEq, Repr

/-- The value `gsf_new` returns: an error code and its text. -/
structure GsfError where
  code : Int
  text : String
  deriving DecidableEq, Repr

/-- The decoder library, a parameter of the embedding.  `L` is the state of the library (all
its emulator instances); every call names the instance by its handle.  Calls through
`const GsfEmu *` do not change the library state.  A text error is `some text`, no error is
`none` (a null pointer in the source). -/
structure Decoder (L : Type) where
  gsf_new : L → Nat → Int → Int → GsfError × L
  gsf_num_channels : L → Nat → Int
  gsf_ended : L → Nat → Bool
  gsf_get_tags : L → Nat → Option String × GsfTags
  gsf_seek : L → Nat → Int → L
  gsf_tell : L → Nat → Int
  gsf_play : L → Nat → Nat → Nat → Option String × L
  gsf_delete : L → Nat → L

/-- The SDL audio stream, a parameter of the embedding.  `S` is the content of the stream.
`SDL_AudioStreamGet s len` returns the number of bytes delivered (negative on error) and the
stream afterwards; `SDL_AudioStreamPut s len` returns the status and the stream afterwards;
`fresh` is the content of a stream just made by `SDL_NewAudioStream`. -/
structure AudioStream (S : Type) where
  SDL_AudioStreamGet : S → Int → Int × S
  SDL_AudioStreamPut : S → Int → Int × S
  SDL_AudioStreamClear : S → S
  fresh : S

/-- The host side the file reads: `music_spec`, the constant `BUF_SIZE` (declared outside the
file), the address of the local array `samples` of `GSF_CreateFromRW`, and the outcomes of
the allocating calls (`0` is a failed allocation).  The source does not test the result of
`SDL_calloc`. -/
structure Host where
  music_spec_freq : Int
  music_spec_samples : Nat
  BUF_SIZE : Nat
  samples : Nat
  SDL_calloc : Nat
  SDL_NewAudioStream : Nat
  SDL_malloc : Nat → Nat
  SDL_LoadFile_RW : Nat → Nat

/-- The calls the file makes outside itself, as recorded in `World.log`. -/
inductive Event
  | SDL_calloc
  | SDL_NewAudioStream
  | SDL_malloc (size : Nat)
  | SDL_RWseek (src : Nat)
  | SDL_LoadFile_RW (src : Nat)
  | SDL_free (p : Nat)
  | SDL_free_music
  | SDL_FreeAudioStream (stream : Nat)
  | SDL_RWclose (src : Nat)
  | SDL_AudioStreamGet (len : Int)
  | SDL_AudioStreamPut (len : Int)
  | SDL_AudioStreamClear
  | gsf_new (out : Nat)
  | gsf_num_channels (emu : Nat)
  | gsf_ended (emu : Nat)
  | gsf_get_tags (emu : Nat)
  | gsf_free_tags
  | gsf_seek (emu : Nat) (millis : Int)
  | gsf_tell (emu : Nat)
  | gsf_play (emu : Nat) (out : Nat) (size : Nat)
  | gsf_delete (emu : Nat)
  deriving DecidableEq, Repr

/-- Everything outside the track record that the file reads or writes: the last-error string
of `Mix_SetError`, the decoder library, the content of the conversion stream, and the record
of outside calls made so far. -/
structure World (L S : Type) where
  error : String
  lib : L
  stream : S
  log : List Event
  deriving DecidableEq, Repr

/-- `Mix_SetError(text)`. -/
def Mix_SetError {L S : Type} (text : String) (w : World L S) : World L S :=
  { w with error := text }

/-- `SDL_OutOfMemory()`. -/
def SDL_OutOfMemory {L S : Type} (w : World L S) : World L S :=
  { w with error := "Out of memory" }

/-- Appends one outside call to the record. -/
def World.call {L S : Type} (w : World L S) (e : Event) : World L S :=
  { w with log := w.log ++ [e] }

/-- Conversion of an integer value to C `int` (two-complement wrap; for a `double` outside the
`int` range the C conversion is undefined, inside the range this is the identity). -/
def toInt (z : Int) : Int := (z + 2147483648) % 4294967296 - 2147483648

/-- Conversion of an integer value to `size_t` (64 bit). -/
def toSizeT (z : Int) : Nat := (z % 18446744073709551616).toNat

/-- `MIX_MAX_VOLUME`. -/
def MIX_MAX_VOLUME : Int := 128

/-- `GSF_Delete` (lines 271-288), on a nullable record: the world afterwards. -/
def GSF_Delete {L S : Type} (D : Decoder L) (context : Option GSF_Music) (w : World L S) :
    World L S :=
  match context with
  | none => w
  | some music =>
    let w1 :=
      if music.gsf_emu ≠ 0 then
        { (w.call (Event.gsf_delete music.gsf_emu)) with
            lib := D.gsf_delete w.lib music.gsf_emu }
      else w
    let w2 := if music.stream ≠ 0 then w1.call (Event.SDL_FreeAudioStream music.stream) else w1
    let w3 := if music.buffer ≠ 0 then w2.call (Event.SDL_free music.buffer) else w2
    w3.call Event.SDL_free_music

/-- The function `initialize` of the source (lines 117-137), which reads the decoder tags into
the tag container: result code, record and world afterwards. -/
def initialise {L S : Type} (D : Decoder L) (music : GSF_Music) (w : World L S) :
    Int × GSF_Music × World L S :=
  let r := D.gsf_get_tags w.lib music.gsf_emu
  let w1 := w.call (Event.gsf_get_tags music.gsf_emu)
  match r.1 with
  | some err => (-1, music, Mix_SetError ("GSF: " ++ err) w1)
  | none =>
    let t0 := meta_tags_init
    let t1 := meta_tags_set t0 .MIX_META_TITLE r.2.title
    let t2 := meta_tags_set t1 .MIX_META_ARTIST r.2.artist
    let t3 := meta_tags_set t2 .MIX_META_ALBUM r.2.game
    let t4 := meta_tags_set t3 .MIX_META_COPYRIGHT r.2.copyright
    (0, { music with tags := t4 }, w1.call Event.gsf_free_tags)

/-- `GSF_CreateFromRW` (lines 139-202): the returned record (`none` is `NULL`) and the world
afterwards.  `src` is the byte source pointer.  As in the source, the size query on line 160
is made on the record itself, `gsf_new` is handed the loaded block and its result is not
stored in the record. -/
def GSF_CreateFromRW {L S : Type} (H : Host) (D : Decoder L) (A : AudioStream S)
    (src : Nat) (args : String) (w : World L S) : Option GSF_Music × World L S :=
  if src = 0 then
    (none, Mix_SetError "GME: Empty source given" w)
  else
    let w1 := w.call Event.SDL_calloc
    let music0 := GSF_Music_zero
    let w2 := { (w1.call Event.SDL_NewAudioStream) with
                  stream := if H.SDL_NewAudioStream ≠ 0 then A.fresh else w1.stream }
    let music1 := { music0 with stream := H.SDL_NewAudioStream }
    if music1.stream = 0 then
      (none, GSF_Delete D (some music1) w2)
    else
      let channels := D.gsf_num_channels w2.lib H.SDL_calloc
      let w3 := w2.call (Event.gsf_num_channels H.SDL_calloc)
      let size := (H.music_spec_samples * 2 * toSizeT channels) % 18446744073709551616
      let music2 := { music1 with buffer_size := size }
      let w4 := w3.call (Event.SDL_malloc size)
      let music3 := { music2 with buffer := H.SDL_malloc size }
      if music3.buffer = 0 then
        (none, GSF_Delete D (some music3) (SDL_OutOfMemory w4))
      else
        let w5 := (w4.call (Event.SDL_RWseek src)).call (Event.SDL_LoadFile_RW src)
        let mem := H.SDL_LoadFile_RW src
        if mem ≠ 0 then
          let r := D.gsf_new w5.lib mem H.music_spec_freq 0
          let w6 := { (w5.call (Event.gsf_new mem)) with lib := r.2 }
          let w7 := w6.call (Event.SDL_free mem)
          if r.1.code ≠ 0 then
            (none, Mix_SetError ("GSF: " ++ r.1.text) (GSF_Delete D (some music3) w7))
          else
            let w8 := w7.call (Event.gsf_num_channels music3.gsf_emu)
            let p := D.gsf_play w8.lib music3.gsf_emu H.samples H.BUF_SIZE
            let w9 := { (w8.call (Event.gsf_play music3.gsf_emu H.samples H.BUF_SIZE)) with
                         lib := p.2 }
            match p.1 with
            | some err => (none, Mix_SetError ("GSF: " ++ err) (GSF_Delete D (some music3) w9))
            | none =>
              let music4 := { music3 with volume := MIX_MAX_VOLUME }
              let i := initialise D music4 w9
              if i.1 = -1 then
                (none, GSF_Delete D (some i.2.1) i.2.2)
              else
                (some i.2.1, i.2.2)
        else
          (none, GSF_Delete D (some music3) (SDL_OutOfMemory w5))

/-- `GSF_NewRWEx` (lines 205-215). -/
def GSF_NewRWEx {L S : Type} (H : Host) (D : Decoder L) (A : AudioStream S)
    (src : Nat) (freesrc : Int) (args : String) (w : World L S) :
    Option GSF_Music × World L S :=
  match GSF_CreateFromRW H D A src args w with
  | (none, w1) => (none, w1)
  | (some gsf_music, w1) =>
    if freesrc ≠ 0 then (some gsf_music, w1.call (Event.SDL_RWclose src))
    else (some gsf_music, w1)

/-- `GSF_NewRW` (lines 217-220). -/
def GSF_NewRW {L S : Type} (H : Host) (D : Decoder L) (A : AudioStream S)
    (src : Nat) (freesrc : Int) (w : World L S) : Option GSF_Music × World L S :=
  GSF_NewRWEx H D A src freesrc "0" w

/-- `GSF_Play` (lines 223-232), on a nullable record: result code, record and world. -/
def GSF_Play {L S : Type} (D : Decoder L) (A : AudioStream S) (music_p : Option GSF_Music)
    (play_count : Int) (w : World L S) : Int × Option GSF_Music × World L S :=
  match music_p with
  | some music =>
    let w1 := { (w.call Event.SDL_AudioStreamClear) with
                  stream := A.SDL_AudioStreamClear w.stream }
    let music1 := { music with play_count := play_count }
    let w2 := { (w1.call (Event.gsf_seek music1.gsf_emu 0)) with
                  lib := D.gsf_seek w1.lib music1.gsf_emu 0 }
    (0, some music1, w2)
  | none => (0, none, w)

/-- What a call of `GSF_GetSome` leaves behind: the return value, the flag `*done`, the track
record and the world. -/
structure Pull (L S : Type) where
  ret : Int
  done : Bool
  music : GSF_Music
  world : World L S
  deriving DecidableEq, Repr

/-- `GSF_GetSome` (lines 234-261).  `done` is the value of `*done` on entry.  The render call
is the one line 251 writes, `gsf_play(emu, buffer_size / 2, buffer)`: against the member
declared `(emu, out, size)` the decoder gets `buffer_size / 2` as `out` and the buffer pointer
as `size`. -/
def GSF_GetSome {L S : Type} (D : Decoder L) (A : AudioStream S) (music : GSF_Music)
    (bytes : Int) (done : Bool) (w : World L S) : Pull L S :=
  let g := A.SDL_AudioStreamGet w.stream bytes
  let w1 := { (w.call (Event.SDL_AudioStreamGet bytes)) with stream := g.2 }
  let filled := g.1
  if filled ≠ 0 then
    { ret := filled, done := done, music := music, world := w1 }
  else
    let w2 := w1.call (Event.gsf_ended music.gsf_emu)
    if D.gsf_ended w1.lib music.gsf_emu then
      { ret := 0, done := true, music := music, world := w2 }
    else
      let p := D.gsf_play w2.lib music.gsf_emu (music.buffer_size / 2) music.buffer
      let w3 := { (w2.call (Event.gsf_play music.gsf_emu (music.buffer_size / 2) music.buffer))
                  with lib := p.2 }
      match p.1 with
      | some err => { ret := 0, done := done, music := music,
                      world := Mix_SetError ("GSF: " ++ err) w3 }
      | none =>
        let q := A.SDL_AudioStreamPut w3.stream (toInt music.buffer_size)
        let w4 := { (w3.call (Event.SDL_AudioStreamPut (toInt music.buffer_size))) with
                      stream := q.2 }
        if q.1 < 0 then
          { ret := -1, done := done, music := music, world := w4 }
        else
          { ret := 0, done := done, music := music, world := w4 }

/-- Successive calls of `GSF_GetSome` on one track, one per requested size, each starting
from what the previous one left: the return values in order, and the last `Pull`. -/
def pulls {L S : Type} (D : Decoder L) (A : AudioStream S) :
    List Int → Pull L S → List Int × Pull L S
  | [], p => ([], p)
  | bytes :: rest, p =>
    let p1 := GSF_GetSome D A p.music bytes p.done p.world
    let r := pulls D A rest p1
    (p1.ret :: r.1, r.2)

/-- `GSF_Seek` (lines 297-302): result code and world; `time` is in seconds. -/
def GSF_Seek {L S : Type} (D : Decoder L) (music : GSF_Music) (time : ℚ) (w : World L S) :
    Int × World L S :=
  let millis := toInt ⌊time * 1000 + 1 / 2⌋
  (0, { (w.call (Event.gsf_seek music.gsf_emu millis)) with
          lib := D.gsf_seek w.lib music.gsf_emu millis })

/-- `GSF_Tell` (lines 304-308): position in seconds and world. -/
def GSF_Tell {L S : Type} (D : Decoder L) (music : GSF_Music) (w : World L S) :
    ℚ × World L S :=
  ((D.gsf_tell w.lib music.gsf_emu : ℚ) / 1000, w.call (Event.gsf_tell music.gsf_emu))

/-- `GSF_Duration` (lines 310-319). -/
def GSF_Duration (music : GSF_Music) : ℚ :=
  if music.has_track_length then (music.track_length : ℚ) / 1000 else -1

/-- `GSF_GetNumTracks` (lines 341-345): the channel count and the world. -/
def GSF_GetNumTracks {L S : Type} (D : Decoder L) (music : GSF_Music) (w : World L S) :
    Int × World L S :=
  (D.gsf_num_channels w.lib music.gsf_emu, w.call (Event.gsf_num_channels music.gsf_emu))

/-- `GSF_GetMetaTag` (lines 290-294). -/
def GSF_GetMetaTag (music : GSF_Music) (tag_type : Mix_MusicMetaTag) : String :=
  meta_tags_get music.tags tag_type

/-- `GSF_GetVolume` (lines 110-115), with the same gain parameter. -/
def GSF_GetVolume (gain : ℚ) (music : GSF_Music) : Int :=
  toInt ⌊(music.volume : ℚ) / gain + 1 / 2⌋

/-- One emulator instance: its position and length in milliseconds, and the error text its
render call reports, if any. -/
structure Emu where
  position : Int
  length : Int
  fault : Option String
  deriving DecidableEq, Repr

/-- A small decoder with a single instance (handles are ignored): it seeks to the position
asked for, tells that position, has ended at or past its length, and renders unless at
fault. -/
def emuDecoder : Decoder Emu :=
  { gsf_new := fun l _ _ _ => ({ code := 0, text := "" }, l)
    gsf_num_channels := fun _ _ => 2
    gsf_ended := fun l _ => decide (l.length ≤ l.position)
    gsf_get_tags := fun _ _ =>
      (none, { title := "t", artist := "a", game := "g", copyright := "c" })
    gsf_seek := fun l _ millis => { l with position := millis }
    gsf_tell := fun l _ => l.position
    gsf_play := fun l _ _ size =>
      match l.fault with
      | some e => (some e, l)
      | none => (none, { l with position := l.position + size })
    gsf_delete := fun l _ => l }

/-- A decoder that serves every non-null handle as `emuDecoder` does and has no instance
behind the null handle: there a seek changes nothing and tell reports `-77`. -/
def nullAwareDecoder : Decoder Emu :=
  { emuDecoder with
    gsf_seek := fun l emu millis => if emu = 0 then l else { l with position := millis }
    gsf_tell := fun l emu => if emu = 0 then -77 else l.position }

/-- A byte-counting stream: its content is the number of converted bytes waiting.  A get
delivers what is there up to the size asked for, a put adds its bytes unconverted. -/
def byteQueue : AudioStream Nat :=
  { SDL_AudioStreamGet := fun s len =>
      if len ≤ 0 then (0, s) else (min len s, s - (min len s).toNat)
    SDL_AudioStreamPut := fun s len => if len < 0 then (-1, s) else (0, s + len.toNat)
    SDL_AudioStreamClear := fun _ => 0
    fresh := 0 }

/-- A host whose allocations succeed. -/
def goodHost : Host :=
  { music_spec_freq := 44100, music_spec_samples := 1024, BUF_SIZE := 16, samples := 20480,
    SDL_calloc := 4096,
    SDL_NewAudioStream := 8192, SDL_malloc := fun _ => 12288, SDL_LoadFile_RW := fun _ => 16384 }

/-- The record `GSF_CreateFromRW` returns with `goodHost`, `emuDecoder` and `byteQueue`; its
decoder handle is null, as nothing in the function assigns it. -/
def createdRecord : GSF_Music :=
  { GSF_Music_zero with
    volume := 128, stream := 8192, buffer := 12288, buffer_size := 4096,
    tags := { title := "t", artist := "a", album := "g", copyright := "c" } }

/-- A world with an empty record of calls. -/
def world0 (l : Emu) (s : Nat) : World Emu Nat :=
  { error := "", lib := l, stream := s, log := [] }

/-! ## Theorems -/

/-! ### Loader -/

theorem mem_loadOrder (e : Entry) : e ∈ loadOrder := by
  cases e <;> simp [loadOrder]

theorem functionLoaders_fail (resolve : Entry → Nat) (entry : gsf_loader) (es : List Entry)
    (g : gsf_loader) (h : ∃ e ∈ es, resolve e = 0) :
    functionLoaders resolve entry es g = LoadStep.ret (-1) entry := by
  induction es generalizing g with
  | nil => simp at h
  | cons e rest ih =>
    by_cases h0 : resolve e = 0
    · simp [functionLoaders, FUNCTION_LOADER, h0]
    · have hrest : ∃ x ∈ rest, resolve x = 0 := by
        obtain ⟨x, hx, hx0⟩ := h
        rcases List.mem_cons.mp hx with rfl | hx
        · exact absurd hx0 h0
        · exact ⟨x, hx, hx0⟩
      simp [functionLoaders, FUNCTION_LOADER, h0, ih _ hrest]

theorem functionLoaders_ok (resolve : Entry → Nat) (entry : gsf_loader)
    (h : ∀ e, resolve e ≠ 0) (g : gsf_loader) :
    functionLoaders resolve entry loadOrder g = LoadStep.next (boundTo resolve g) := by
  simp [functionLoaders, loadOrder, FUNCTION_LOADER, h, gsf_loader.set, boundTo]

theorem GSF_Load_fail (resolve : Entry → Nat) (g : gsf_loader) (h0 : g.loaded = 0)
    (h : ∃ e, resolve e = 0) : GSF_Load resolve g = (-1, g) := by
  obtain ⟨e, he⟩ := h
  simp [GSF_Load, h0, functionLoaders_fail resolve g loadOrder g ⟨e, mem_loadOrder e, he⟩]

theorem GSF_Load_ok (resolve : Entry → Nat) (g : gsf_loader) (h0 : g.loaded = 0)
    (h : ∀ e, resolve e ≠ 0) :
    GSF_Load resolve g = (0, { boundTo resolve g with loaded := 1 }) := by
  simp [GSF_Load, h0, functionLoaders_ok resolve g h g, boundTo]

theorem GSF_Load_again (resolve : Entry → Nat) (g : gsf_loader) (h0 : g.loaded ≠ 0) :
    GSF_Load resolve g = (0, { g with loaded := g.loaded + 1 }) := by
  simp [GSF_Load, h0]

theorem GSF_Unload_eq (g : gsf_loader) :
    GSF_Unload g = { g with loaded := if g.loaded = 0 then 0 else g.loaded - 1 } := by
  unfold GSF_Unload
  by_cases h : g.loaded = 0
  · simp [h]
    cases g
    simp_all
  · simp [h]

theorem boundTo_get (resolve : Entry → Nat) (g : gsf_loader) (e : Entry) :
    (boundTo resolve g).get e = resolve e := by
  cases e <;> rfl

theorem cycle_fail (resolve : Entry → Nat) (g : gsf_loader) (h0 : g.loaded = 0)
    (h : ∃ e, resolve e = 0) : GSF_Unload (GSF_Load resolve g).2 = g := by
  rw [GSF_Load_fail resolve g h0 h]
  simp [GSF_Unload, h0]

theorem cycle_ok (resolve : Entry → Nat) (g : gsf_loader) (h0 : g.loaded = 0)
    (h : ∀ e, resolve e ≠ 0) : GSF_Unload (GSF_Load resolve g).2 = boundTo resolve g := by
  rw [GSF_Load_ok resolve g h0 h]
  simp [GSF_Unload, boundTo, h0]

theorem cycles_fail (resolve : Entry → Nat) (h : ∃ e, resolve e = 0) (n : Nat)
    (g : gsf_loader) (h0 : g.loaded = 0) : loadUnloadCycles resolve n g = g := by
  induction n with
  | zero => rfl
  | succ k ih => simp [loadUnloadCycles, cycle_fail resolve g h0 h, ih]

theorem cycles_ok (resolve : Entry → Nat) (h : ∀ e, resolve e ≠ 0) (n : Nat)
    (g : gsf_loader) (h0 : g.loaded = 0) :
    loadUnloadCycles resolve (n + 1) g = boundTo resolve g := by
  induction n generalizing g with
  | zero => simp [loadUnloadCycles, cycle_ok resolve g h0 h]
  | succ k ih =>
    have hb : (boundTo resolve g).loaded = 0 := h0
    have step : loadUnloadCycles resolve (k + 1 + 1) g =
        loadUnloadCycles resolve (k + 1) (GSF_Unload (GSF_Load resolve g).2) := rfl
    rw [step, cycle_ok resolve g h0 h, ih _ hb]
    simp [boundTo]

theorem GSF_Load_allResolved_eval :
    GSF_Load allResolved gsf_zero = (0, { boundTo allResolved gsf_zero with loaded := 1 }) := by
  decide

theorem GSF_Load_seekMissing_eval : GSF_Load seekMissing gsf_zero = (-1, gsf_zero) := by
  decide

/-- C1 as stated fails: one cycle of `GSF_Load` then `GSF_Unload` from the all-zero loader,
with a library that exports every symbol, brings the count back to 0 but does not give back
the loader of before the cycle: the function pointers are still bound. -/
theorem C1_cycle_keeps_pointers_bound :
    gsf_zero.loaded = 0 ∧
    (loadUnloadCycles allResolved 1 gsf_zero).loaded = 0 ∧
    loadUnloadCycles allResolved 1 gsf_zero ≠ gsf_zero ∧
    (loadUnloadCycles allResolved 1 gsf_zero).gsf_seek = 109 := by
  decide

/-- C1, amended: from a loader with count 0, any number `n` of `GSF_Load`/`GSF_Unload` cycles
leaves the count at 0 and the library handle as it was.  The loader is exactly the one of
before the first cycle when some symbol does not resolve; when every symbol resolves and
`n ≥ 1`, every function pointer stays bound to its resolved address. -/
theorem loadUnloadCycles_count (resolve : Entry → Nat) (n : Nat) (g : gsf_loader)
    (h0 : g.loaded = 0) :
    (loadUnloadCycles resolve n g).loaded = 0 ∧
    (loadUnloadCycles resolve n g).handle = g.handle ∧
    ((∃ e, resolve e = 0) → loadUnloadCycles resolve n g = g) ∧
    ((∀ e, resolve e ≠ 0) → 0 < n →
      ∀ e, (loadUnloadCycles resolve n g).get e = resolve e) := by
  by_cases h : ∃ e, resolve e = 0
  · have hc := cycles_fail resolve h n g h0
    refine ⟨by rw [hc]; exact h0, by rw [hc], fun _ => hc, fun hall _ => ?_⟩
    obtain ⟨e, he⟩ := h
    exact absurd he (hall e)
  · have hall : ∀ e, resolve e ≠ 0 := fun e he => h ⟨e, he⟩
    cases n with
    | zero =>
      refine ⟨h0, rfl, fun _ => rfl, fun _ hn => absurd hn (by decide)⟩
    | succ k =>
      have hc := cycles_ok resolve hall k g h0
      refine ⟨by rw [hc]; exact h0, by rw [hc]; rfl, fun hex => absurd hex h, fun _ _ e => ?_⟩
      rw [hc]
      exact boundTo_get resolve g e

theorem loadUnloadCycles_count_witness :
    gsf_zero.loaded = 0 ∧
    (loadUnloadCycles allResolved 3 gsf_zero).loaded = 0 ∧
    (loadUnloadCycles allResolved 3 gsf_zero).handle = gsf_zero.handle ∧
    ((∃ e, allResolved e = 0) → loadUnloadCycles allResolved 3 gsf_zero = gsf_zero) ∧
    ((∀ e, allResolved e ≠ 0) → 0 < 3 →
      ∀ e, (loadUnloadCycles allResolved 3 gsf_zero).get e = allResolved e) :=
  ⟨by decide, loadUnloadCycles_count allResolved 3 gsf_zero (by decide)⟩

/-- C2 as stated fails: `GSF_Unload` called with count 1 on the loader that a successful
`GSF_Load` left brings the count to 0 and clears nothing: `gsf_seek` and `gsf_play` are
still the resolved addresses. -/
theorem C2_unload_clears_nothing :
    (GSF_Load allResolved gsf_zero).2.loaded = 1 ∧
    (GSF_Unload (GSF_Load allResolved gsf_zero).2).loaded = 0 ∧
    (GSF_Unload (GSF_Load allResolved gsf_zero).2).gsf_seek = 109 ∧
    (GSF_Unload (GSF_Load allResolved gsf_zero).2).gsf_play = 111 := by
  decide

/-- C2, amended: `GSF_Unload` lowers the count by one when it is not zero and does nothing
when it is zero; the library handle and every function pointer are left as they were, also
when the count reaches zero. -/
theorem GSF_Unload_only_decrements (g : gsf_loader) :
    GSF_Unload g = { g with loaded := if g.loaded = 0 then 0 else g.loaded - 1 } ∧
    (GSF_Unload g).handle = g.handle ∧
    ∀ e, (GSF_Unload g).get e = g.get e := by
  refine ⟨GSF_Unload_eq g, ?_, ?_⟩
  · rw [GSF_Unload_eq]
  · intro e
    rw [GSF_Unload_eq]
    cases e <;> rfl

/-- C3: `GSF_Load` at count 0 with an unresolved symbol returns failure (`-1`) and leaves the
loader as it was; at count 0 with every symbol resolved it returns 0, binds every pointer
and makes the count one more; at a positive count it returns 0 and only adds one to the
count. -/
theorem GSF_Load_contract (resolve : Entry → Nat) (g : gsf_loader) :
    (g.loaded = 0 → (∃ e, resolve e = 0) → GSF_Load resolve g = (-1, g)) ∧
    (g.loaded = 0 → (∀ e, resolve e ≠ 0) →
      (GSF_Load resolve g).1 = 0 ∧ (GSF_Load resolve g).2.loaded = g.loaded + 1 ∧
      (GSF_Load resolve g).2.handle = g.handle ∧
      ∀ e, (GSF_Load resolve g).2.get e = resolve e) ∧
    (0 < g.loaded → GSF_Load resolve g = (0, { g with loaded := g.loaded + 1 })) := by
  refine ⟨GSF_Load_fail resolve g, fun h0 hall => ?_, fun hpos => ?_⟩
  · rw [GSF_Load_ok resolve g h0 hall]
    refine ⟨rfl, ?_, rfl, fun e => ?_⟩
    · simp [h0]
    · cases e <;> rfl
  · exact GSF_Load_again resolve g (by omega)

theorem GSF_Load_contract_witness :
    GSF_Load seekMissing gsf_zero = (-1, gsf_zero) ∧
    ((GSF_Load allResolved gsf_zero).1 = 0 ∧ (GSF_Load allResolved gsf_zero).2.loaded = 0 + 1 ∧
      (GSF_Load allResolved gsf_zero).2.handle = 0 ∧
      ∀ e, (GSF_Load allResolved gsf_zero).2.get e = allResolved e) ∧
    GSF_Load seekMissing { gsf_zero with loaded := 2 } = (0, { gsf_zero with loaded := 2 + 1 }) :=
  ⟨(GSF_Load_contract seekMissing gsf_zero).1 rfl ⟨Entry.gsf_seek, rfl⟩,
   (GSF_Load_contract allResolved gsf_zero).2.1 rfl (fun e => by cases e <;> decide),
   (GSF_Load_contract seekMissing { gsf_zero with loaded := 2 }).2.2 (by decide)⟩

/-! ### Creation -/

/-- C4: with a null byte source, `GSF_CreateFromRW`, `GSF_NewRWEx` and `GSF_NewRW` return the
null handle and leave the world as it was except for the last-error string, which is the
empty-source message: no outside call is recorded (no allocation, no stream, no decoder
call) and the decoder library and the stream are untouched. -/
theorem GSF_CreateFromRW_null_source {L S : Type} (H : Host) (D : Decoder L)
    (A : AudioStream S) (args : String) (freesrc : Int) (w : World L S) :
    GSF_CreateFromRW H D A 0 args w =
      (none, { error := "GME: Empty source given", lib := w.lib, stream := w.stream,
               log := w.log }) ∧
    GSF_NewRWEx H D A 0 freesrc args w =
      (none, { error := "GME: Empty source given", lib := w.lib, stream := w.stream,
               log := w.log }) ∧
    GSF_NewRW H D A 0 freesrc w =
      (none, { error := "GME: Empty source given", lib := w.lib, stream := w.stream,
               log := w.log }) := by
  refine ⟨?_, ?_, ?_⟩ <;> simp [GSF_NewRW, GSF_NewRWEx, GSF_CreateFromRW, Mix_SetError]

theorem GSF_NewRW_good_eval :
    (GSF_NewRW goodHost emuDecoder byteQueue 5 1 (world0 ⟨0, 10, none⟩ 0)).1 =
      some { GSF_Music_zero with
               volume := 128, stream := 8192, buffer := 12288, buffer_size := 4096,
               tags := { title := "t", artist := "a", album := "g", copyright := "c" } } ∧
    (GSF_NewRW goodHost emuDecoder byteQueue 5 1 (world0 ⟨0, 10, none⟩ 0)).2.log =
      [Event.SDL_calloc, Event.SDL_NewAudioStream, Event.gsf_num_channels 4096,
       Event.SDL_malloc 4096, Event.SDL_RWseek 5, Event.SDL_LoadFile_RW 5,
       Event.gsf_new 16384, Event.SDL_free 16384, Event.gsf_num_channels 0,
       Event.gsf_play 0 20480 16, Event.gsf_get_tags 0, Event.gsf_free_tags,
       Event.SDL_RWclose 5] := by
  decide

/-! ### Pulling audio -/

theorem GSF_GetSome_ended {L S : Type} (D : Decoder L) (A : AudioStream S)
    (hS : ∀ s n, (A.SDL_AudioStreamGet s n).1 = 0 → (A.SDL_AudioStreamGet s n).2 = s)
    (music : GSF_Music) (bytes : Int) (done : Bool) (w : World L S)
    (hEnded : D.gsf_ended w.lib music.gsf_emu = true)
    (hEmpty : (A.SDL_AudioStreamGet w.stream bytes).1 = 0) :
    GSF_GetSome D A music bytes done w =
      { ret := 0, done := true, music := music,
        world := { error := w.error, lib := w.lib, stream := w.stream,
                   log := w.log ++ [Event.SDL_AudioStreamGet bytes,
                                    Event.gsf_ended music.gsf_emu] } } := by
  simp [GSF_GetSome, World.call, hEmpty, hEnded, hS _ _ hEmpty]

theorem pulls_ended {L S : Type} (D : Decoder L) (A : AudioStream S)
    (hS : ∀ s n, (A.SDL_AudioStreamGet s n).1 = 0 → (A.SDL_AudioStreamGet s n).2 = s)
    (reqs : List Int) (p : Pull L S)
    (hEnded : D.gsf_ended p.world.lib p.music.gsf_emu = true)
    (hEmpty : ∀ n, (A.SDL_AudioStreamGet p.world.stream n).1 = 0) :
    (pulls D A reqs p).1 = List.replicate reqs.length 0 ∧
    (pulls D A reqs p).2.music = p.music ∧
    (pulls D A reqs p).2.world.error = p.world.error ∧
    (pulls D A reqs p).2.world.lib = p.world.lib ∧
    (pulls D A reqs p).2.world.stream = p.world.stream ∧
    (reqs ≠ [] → (pulls D A reqs p).2.ret = 0 ∧ (pulls D A reqs p).2.done = true) := by
  induction reqs generalizing p with
  | nil => simp [pulls]
  | cons b rest ih =>
    have h1 := GSF_GetSome_ended D A hS p.music b p.done p.world hEnded (hEmpty b)
    have ih1 := ih (GSF_GetSome D A p.music b p.done p.world)
      (by rw [h1]; exact hEnded) (by rw [h1]; exact hEmpty)
    rw [h1] at ih1
    obtain ⟨i1, i2, i3, i4, i5, i6⟩ := ih1
    refine ⟨?_, ?_, ?_, ?_, ?_, fun _ => ?_⟩
    · simp only [pulls, h1, i1, List.length_cons, List.replicate_succ]
    · simp only [pulls, h1, i2]
    · simp only [pulls, h1, i3]
    · simp only [pulls, h1, i4]
    · simp only [pulls, h1, i5]
    · cases rest with
      | nil => simp [pulls, h1]
      | cons c cs =>
        have h := i6 (by simp)
        simpa only [pulls, h1] using h

/-- C5 as stated fails: with the decoder at end-of-stream and eight converted bytes still
waiting in the stream, a pull of four bytes returns 4, not 0, and leaves the done flag
false. -/
theorem C5_ended_with_buffered_audio :
    emuDecoder.gsf_ended (world0 ⟨10, 10, none⟩ 8).lib GSF_Music_zero.gsf_emu = true ∧
    (GSF_GetSome emuDecoder byteQueue GSF_Music_zero 4 false (world0 ⟨10, 10, none⟩ 8)).ret = 4 ∧
    (GSF_GetSome emuDecoder byteQueue GSF_Music_zero 4 false (world0 ⟨10, 10, none⟩ 8)).done =
      false := by
  decide

/-- C5, amended: for every track state in which the decoder reports end-of-stream and the
conversion stream has nothing to deliver (with a stream that a fruitless get leaves as it
was), a pull returns zero bytes and sets the done flag, and leaves the track record, the
decoder, the stream and the last-error string as they were; so does every later pull,
whatever sizes are asked for. -/
theorem GSF_GetSome_ended_stable {L S : Type} (D : Decoder L) (A : AudioStream S)
    (music : GSF_Music) (done : Bool) (w : World L S)
    (hS : ∀ s n, (A.SDL_AudioStreamGet s n).1 = 0 → (A.SDL_AudioStreamGet s n).2 = s)
    (hEnded : D.gsf_ended w.lib music.gsf_emu = true)
    (hEmpty : ∀ n, (A.SDL_AudioStreamGet w.stream n).1 = 0) :
    (∀ bytes, GSF_GetSome D A music bytes done w =
      { ret := 0, done := true, music := music,
        world := { error := w.error, lib := w.lib, stream := w.stream,
                   log := w.log ++ [Event.SDL_AudioStreamGet bytes,
                                    Event.gsf_ended music.gsf_emu] } }) ∧
    (∀ bytes later,
      (pulls D A (bytes :: later) ⟨0, done, music, w⟩).1 =
        List.replicate (later.length + 1) 0 ∧
      (pulls D A (bytes :: later) ⟨0, done, music, w⟩).2.ret = 0 ∧
      (pulls D A (bytes :: later) ⟨0, done, music, w⟩).2.done = true ∧
      (pulls D A (bytes :: later) ⟨0, done, music, w⟩).2.music = music ∧
      (pulls D A (bytes :: later) ⟨0, done, music, w⟩).2.world.error = w.error ∧
      (pulls D A (bytes :: later) ⟨0, done, music, w⟩).2.world.lib = w.lib ∧
      (pulls D A (bytes :: later) ⟨0, done, music, w⟩).2.world.stream = w.stream) := by
  refine ⟨fun bytes => GSF_GetSome_ended D A hS music bytes done w hEnded (hEmpty bytes),
    fun bytes later => ?_⟩
  obtain ⟨h1, h2, h3, h4, h5, h6⟩ :=
    pulls_ended D A hS (bytes :: later) ⟨0, done, music, w⟩ hEnded hEmpty
  exact ⟨h1, (h6 (by simp)).1, (h6 (by simp)).2, h2, h3, h4, h5⟩

theorem byteQueue_fruitless_get (s : Nat) (n : Int)
    (h : (byteQueue.SDL_AudioStreamGet s n).1 = 0) : (byteQueue.SDL_AudioStreamGet s n).2 = s := by
  simp only [byteQueue] at h ⊢
  split at h
  · simp [*]
  · rename_i hn
    simp only [hn, if_false]
    simp only at h
    omega

theorem byteQueue_empty (n : Int) : (byteQueue.SDL_AudioStreamGet 0 n).1 = 0 := by
  simp only [byteQueue]
  split
  · rfl
  · simp
    omega

theorem GSF_GetSome_ended_stable_witness :
    (∀ bytes, GSF_GetSome emuDecoder byteQueue GSF_Music_zero bytes false
        (world0 ⟨10, 10, none⟩ 0) =
      { ret := 0, done := true, music := GSF_Music_zero,
        world := { error := "", lib := ⟨10, 10, none⟩, stream := 0,
                   log := [] ++ [Event.SDL_AudioStreamGet bytes, Event.gsf_ended 0] } }) ∧
    (∀ bytes later,
      (pulls emuDecoder byteQueue (bytes :: later)
          ⟨0, false, GSF_Music_zero, world0 ⟨10, 10, none⟩ 0⟩).1 =
        List.replicate (later.length + 1) 0 ∧
      (pulls emuDecoder byteQueue (bytes :: later)
          ⟨0, false, GSF_Music_zero, world0 ⟨10, 10, none⟩ 0⟩).2.ret = 0 ∧
      (pulls emuDecoder byteQueue (bytes :: later)
          ⟨0, false, GSF_Music_zero, world0 ⟨10, 10, none⟩ 0⟩).2.done = true ∧
      (pulls emuDecoder byteQueue (bytes :: later)
          ⟨0, false, GSF_Music_zero, world0 ⟨10, 10, none⟩ 0⟩).2.music = GSF_Music_zero ∧
      (pulls emuDecoder byteQueue (bytes :: later)
          ⟨0, false, GSF_Music_zero, world0 ⟨10, 10, none⟩ 0⟩).2.world.error = "" ∧
      (pulls emuDecoder byteQueue (bytes :: later)
          ⟨0, false, GSF_Music_zero, world0 ⟨10, 10, none⟩ 0⟩).2.world.lib = ⟨10, 10, none⟩ ∧
      (pulls emuDecoder byteQueue (bytes :: later)
          ⟨0, false, GSF_Music_zero, world0 ⟨10, 10, none⟩ 0⟩).2.world.stream = 0) :=
  GSF_GetSome_ended_stable emuDecoder byteQueue GSF_Music_zero false (world0 ⟨10, 10, none⟩ 0)
    byteQueue_fruitless_get (by decide) byteQueue_empty

/-- C9: when the stream delivers nothing, the decoder has not ended and the render call the
code makes (line 251: `gsf_play(emu, buffer_size / 2, buffer)`) reports an error, the pull
returns 0, sets the last-error string to the decoder text (as `Mix_SetError("GSF: %s", err)`
formats it), makes no put into the stream (after the get the only outside calls are the
end-of-stream query and the render), leaves the done flag as it was and returns the track
record unchanged. -/
theorem GSF_GetSome_render_error {L S : Type} (D : Decoder L) (A : AudioStream S)
    (music : GSF_Music) (bytes : Int) (done : Bool) (w : World L S) (text : String)
    (hGet : (A.SDL_AudioStreamGet w.stream bytes).1 = 0)
    (hEnded : D.gsf_ended w.lib music.gsf_emu = false)
    (hErr : (D.gsf_play w.lib music.gsf_emu (music.buffer_size / 2) music.buffer).1
              = some text) :
    GSF_GetSome D A music bytes done w =
      { ret := 0, done := done, music := music,
        world :=
          { error := "GSF: " ++ text,
            lib := (D.gsf_play w.lib music.gsf_emu (music.buffer_size / 2) music.buffer).2,
            stream := (A.SDL_AudioStreamGet w.stream bytes).2,
            log := w.log ++ [Event.SDL_AudioStreamGet bytes, Event.gsf_ended music.gsf_emu,
                             Event.gsf_play music.gsf_emu (music.buffer_size / 2)
                               music.buffer] } } := by
  simp [GSF_GetSome, World.call, Mix_SetError, hGet, hEnded, hErr]

theorem GSF_GetSome_render_error_witness :
    GSF_GetSome emuDecoder byteQueue { GSF_Music_zero with buffer := 12288, buffer_size := 8 }
        4 false (world0 ⟨1, 10, some "boom"⟩ 0) =
      { ret := 0, done := false,
        music := { GSF_Music_zero with buffer := 12288, buffer_size := 8 },
        world :=
          { error := "GSF: " ++ "boom",
            lib := (emuDecoder.gsf_play ⟨1, 10, some "boom"⟩ 0 (8 / 2) 12288).2,
            stream := (byteQueue.SDL_AudioStreamGet 0 4).2,
            log := [] ++ [Event.SDL_AudioStreamGet 4, Event.gsf_ended 0,
                          Event.gsf_play 0 (8 / 2) 12288] } } :=
  GSF_GetSome_render_error emuDecoder byteQueue
    { GSF_Music_zero with buffer := 12288, buffer_size := 8 } 4 false
    (world0 ⟨1, 10, some "boom"⟩ 0) "boom" (by decide) (by decide) (by decide)

theorem GSF_GetSome_render_eval :
    (GSF_GetSome emuDecoder byteQueue { GSF_Music_zero with buffer := 12288, buffer_size := 8 }
        4 false (world0 ⟨1, 20000, none⟩ 0)).world.log =
      [Event.SDL_AudioStreamGet 4, Event.gsf_ended 0, Event.gsf_play 0 4 12288,
       Event.SDL_AudioStreamPut 8] := by
  decide

/-- C10: when the get on the conversion stream delivers a non-zero number of bytes, the pull
returns exactly that number; the only outside call is that get (no end-of-stream query, no
render, no put), the decoder and the last-error string are untouched, the done flag and the
track record are as they were, whether or not the decoder has ended. -/
theorem GSF_GetSome_buffered {L S : Type} (D : Decoder L) (A : AudioStream S)
    (music : GSF_Music) (bytes : Int) (done : Bool) (w : World L S)
    (hGet : (A.SDL_AudioStreamGet w.stream bytes).1 ≠ 0) :
    GSF_GetSome D A music bytes done w =
      { ret := (A.SDL_AudioStreamGet w.stream bytes).1, done := done, music := music,
        world := { error := w.error, lib := w.lib,
                   stream := (A.SDL_AudioStreamGet w.stream bytes).2,
                   log := w.log ++ [Event.SDL_AudioStreamGet bytes] } } := by
  simp [GSF_GetSome, World.call, hGet]

theorem GSF_GetSome_buffered_witness :
    (byteQueue.SDL_AudioStreamGet 8 6).1 = 6 ∧
    GSF_GetSome emuDecoder byteQueue GSF_Music_zero 6 false (world0 ⟨10, 10, none⟩ 8) =
      { ret := (byteQueue.SDL_AudioStreamGet 8 6).1, done := false, music := GSF_Music_zero,
        world := { error := "", lib := ⟨10, 10, none⟩,
                   stream := (byteQueue.SDL_AudioStreamGet 8 6).2,
                   log := [] ++ [Event.SDL_AudioStreamGet 6] } } :=
  ⟨by decide,
   GSF_GetSome_buffered emuDecoder byteQueue GSF_Music_zero 6 false (world0 ⟨10, 10, none⟩ 8)
     (by decide)⟩

/-! ### Position and duration -/

theorem toInt_of_range (z : Int) (h0 : 0 ≤ z) (h1 : z ≤ 2147483647) : toInt z = z := by
  unfold toInt
  omega

theorem millis_range (t : ℚ) (h0 : 0 ≤ t) (h1 : 1000 * t ≤ 2147483647) :
    0 ≤ ⌊t * 1000 + 1 / 2⌋ ∧ ⌊t * 1000 + 1 / 2⌋ ≤ 2147483647 := by
  constructor
  · apply Int.floor_nonneg.mpr
    linarith
  · have h : ⌊t * 1000 + 1 / 2⌋ < 2147483648 := by
      apply Int.floor_lt.mpr
      push_cast
      linarith
    omega

theorem GSF_Duration_eval :
    GSF_Duration { GSF_Music_zero with has_track_length := true, track_length := 2500 } = 5 / 2 ∧
    GSF_Duration GSF_Music_zero = -1 := by
  constructor
  · simp [GSF_Duration, GSF_Music_zero]
    norm_num
  · simp [GSF_Duration, GSF_Music_zero]

/-- C7: for a time `t ≥ 0` with `1000 * t` inside the `int` range, `GSF_Seek` returns 0 and
its one outside call asks the decoder to seek to `⌊1000 t + 1/2⌋` milliseconds; with a
decoder whose tell reports the position last sought, `GSF_Tell` right afterwards returns
that count divided by 1000, at most `1/2000` s away from `t`. -/
theorem GSF_Seek_then_Tell {L S : Type} (D : Decoder L) (music : GSF_Music) (t : ℚ)
    (w : World L S) (h0 : 0 ≤ t) (h1 : 1000 * t ≤ 2147483647)
    (hTell : ∀ l emu millis, D.gsf_tell (D.gsf_seek l emu millis) emu = millis) :
    GSF_Seek D music t w =
      (0, { error := w.error,
            lib := D.gsf_seek w.lib music.gsf_emu ⌊1000 * t + 1 / 2⌋,
            stream := w.stream,
            log := w.log ++ [Event.gsf_seek music.gsf_emu ⌊1000 * t + 1 / 2⌋] }) ∧
    (GSF_Tell D music (GSF_Seek D music t w).2).1 = (⌊1000 * t + 1 / 2⌋ : ℚ) / 1000 ∧
    |(GSF_Tell D music (GSF_Seek D music t w).2).1 - t| ≤ 1 / 2000 := by
  have hr := millis_range t h0 h1
  have hid : toInt ⌊t * 1000 + 1 / 2⌋ = ⌊1000 * t + 1 / 2⌋ := by
    rw [toInt_of_range _ hr.1 hr.2, mul_comm]
  have hseek : GSF_Seek D music t w =
      (0, { error := w.error,
            lib := D.gsf_seek w.lib music.gsf_emu ⌊1000 * t + 1 / 2⌋,
            stream := w.stream,
            log := w.log ++ [Event.gsf_seek music.gsf_emu ⌊1000 * t + 1 / 2⌋] }) := by
    simp only [GSF_Seek, World.call, hid]
  have htell : (GSF_Tell D music (GSF_Seek D music t w).2).1 =
      (⌊1000 * t + 1 / 2⌋ : ℚ) / 1000 := by
    rw [hseek]
    simp only [GSF_Tell, hTell]
  refine ⟨hseek, htell, ?_⟩
  rw [htell]
  have hle : ((⌊1000 * t + 1 / 2⌋ : Int) : ℚ) ≤ 1000 * t + 1 / 2 := Int.floor_le _
  have hlt : 1000 * t + 1 / 2 < ((⌊1000 * t + 1 / 2⌋ : Int) : ℚ) + 1 := Int.lt_floor_add_one _
  rw [abs_le]
  constructor <;> linarith

theorem emuDecoder_tell_seek (l : Emu) (emu : Nat) (millis : Int) :
    emuDecoder.gsf_tell (emuDecoder.gsf_seek l emu millis) emu = millis := rfl

theorem GSF_Seek_then_Tell_witness :
    (0 : ℚ) ≤ 2469 / 2000 ∧ (1000 : ℚ) * (2469 / 2000) ≤ 2147483647 ∧
    GSF_Seek emuDecoder GSF_Music_zero (2469 / 2000) (world0 ⟨0, 10, none⟩ 0) =
      (0, { error := (world0 ⟨0, 10, none⟩ 0).error,
            lib := emuDecoder.gsf_seek (world0 ⟨0, 10, none⟩ 0).lib GSF_Music_zero.gsf_emu
                     ⌊(1000 : ℚ) * (2469 / 2000) + 1 / 2⌋,
            stream := (world0 ⟨0, 10, none⟩ 0).stream,
            log := (world0 ⟨0, 10, none⟩ 0).log ++
                     [Event.gsf_seek GSF_Music_zero.gsf_emu
                        ⌊(1000 : ℚ) * (2469 / 2000) + 1 / 2⌋] }) ∧
    (GSF_Tell emuDecoder GSF_Music_zero
        (GSF_Seek emuDecoder GSF_Music_zero (2469 / 2000) (world0 ⟨0, 10, none⟩ 0)).2).1 =
      ((⌊(1000 : ℚ) * (2469 / 2000) + 1 / 2⌋ : Int) : ℚ) / 1000 ∧
    |(GSF_Tell emuDecoder GSF_Music_zero
        (GSF_Seek emuDecoder GSF_Music_zero (2469 / 2000) (world0 ⟨0, 10, none⟩ 0)).2).1 -
      2469 / 2000| ≤ 1 / 2000 :=
  ⟨by norm_num, by norm_num,
   GSF_Seek_then_Tell emuDecoder GSF_Music_zero (2469 / 2000) (world0 ⟨0, 10, none⟩ 0)
     (by norm_num) (by norm_num) emuDecoder_tell_seek⟩

theorem GSF_Seek_example_millis : ⌊(2469 / 2000 : ℚ) * 1000 + 1 / 2⌋ = 1235 := by
  rw [Int.floor_eq_iff]
  norm_num

theorem GSF_Seek_eval :
    GSF_Seek emuDecoder GSF_Music_zero (2469 / 2000) (world0 ⟨0, 10, none⟩ 0) =
      (0, { error := "", lib := ⟨1235, 10, none⟩, stream := 0,
            log := [Event.gsf_seek 0 1235] }) ∧
    (GSF_Tell emuDecoder GSF_Music_zero
        (GSF_Seek emuDecoder GSF_Music_zero (2469 / 2000) (world0 ⟨0, 10, none⟩ 0)).2).1 =
      247 / 200 := by
  have h : GSF_Seek emuDecoder GSF_Music_zero (2469 / 2000) (world0 ⟨0, 10, none⟩ 0) =
      (0, { error := "", lib := ⟨1235, 10, none⟩, stream := 0,
            log := [Event.gsf_seek 0 1235] }) := by
    simp only [GSF_Seek, GSF_Seek_example_millis]
    rfl
  refine ⟨h, ?_⟩
  rw [h]
  simp only [GSF_Tell, emuDecoder]
  norm_num

theorem GSF_Play_effect {L S : Type} (D : Decoder L) (A : AudioStream S)
    (music : GSF_Music) (play_count : Int) (w : World L S) :
    GSF_Play D A (some music) play_count w =
      (0, some { music with play_count := play_count },
       { error := w.error,
         lib := D.gsf_seek w.lib music.gsf_emu 0,
         stream := A.SDL_AudioStreamClear w.stream,
         log := w.log ++ [Event.SDL_AudioStreamClear, Event.gsf_seek music.gsf_emu 0] }) := by
  simp [GSF_Play, World.call]

theorem nullAwareDecoder_tell_seek (l : Emu) (emu : Nat) (millis : Int) (h : emu ≠ 0) :
    nullAwareDecoder.gsf_tell (nullAwareDecoder.gsf_seek l emu millis) emu = millis := by
  simp [nullAwareDecoder, h]

/-- C8 fails on the code: `GSF_CreateFromRW` hands `gsf_new` the loaded file block (line 171)
and never assigns `gsf_emu`, so a successfully created track has a null decoder handle.
With a decoder whose tell reports the position last sought on every non-null handle,
creation succeeds, `GSF_Play` returns 0 and seeks the null handle, and `GSF_Tell` right
afterwards returns `-77/1000`, not 0. -/
theorem C8_created_track_has_null_handle :
    (∀ l emu millis, emu ≠ 0 →
      nullAwareDecoder.gsf_tell (nullAwareDecoder.gsf_seek l emu millis) emu = millis) ∧
    (GSF_NewRW goodHost nullAwareDecoder byteQueue 5 1 (world0 ⟨0, 10, none⟩ 0)).1 =
      some createdRecord ∧
    createdRecord.gsf_emu = 0 ∧
    (GSF_Play nullAwareDecoder byteQueue (some createdRecord) 3
        (GSF_NewRW goodHost nullAwareDecoder byteQueue 5 1 (world0 ⟨0, 10, none⟩ 0)).2).1 = 0 ∧
    (GSF_Play nullAwareDecoder byteQueue (some createdRecord) 3
        (GSF_NewRW goodHost nullAwareDecoder byteQueue 5 1 (world0 ⟨0, 10, none⟩ 0)).2).2.1 =
      some { createdRecord with play_count := 3 } ∧
    (GSF_Play nullAwareDecoder byteQueue (some createdRecord) 3
        (GSF_NewRW goodHost nullAwareDecoder byteQueue 5 1
          (world0 ⟨0, 10, none⟩ 0)).2).2.2.log.getLast? = some (Event.gsf_seek 0 0) ∧
    (GSF_Tell nullAwareDecoder { createdRecord with play_count := 3 }
        (GSF_Play nullAwareDecoder byteQueue (some createdRecord) 3
          (GSF_NewRW goodHost nullAwareDecoder byteQueue 5 1
            (world0 ⟨0, 10, none⟩ 0)).2).2.2).1 = -77 / 1000 := by
  refine ⟨nullAwareDecoder_tell_seek, by decide, rfl, by decide, by decide, by decide, ?_⟩
  simp [GSF_Tell, nullAwareDecoder, createdRecord, GSF_Music_zero]

theorem GSF_Play_eval :
    GSF_Play emuDecoder byteQueue (some GSF_Music_zero) 3 (world0 ⟨7, 10, none⟩ 5) =
      (0, some { GSF_Music_zero with play_count := 3 },
       { error := "", lib := ⟨0, 10, none⟩, stream := 0,
         log := [Event.SDL_AudioStreamClear, Event.gsf_seek 0 0] }) := by
  decide

end MusicGsf
